import Mathlib

/-!
Shallow embedding of the kia_uvo USA API client
(custom_components/kia_uvo/KiaUvoAPIUSA.py and KiaUvoApiImpl.py).

JSON documents are modelled by an inductive `JVal`; Python dict indexing
is modelled by `JVal.getKey` (a failed lookup stands for the KeyError or
TypeError that Python raises), in-place dict update by `JVal.setKey`,
and Python truthiness by `JVal.truthy`.  Exceptions are modelled by the
`PyError` type together with `Except`; the in-place mutation of the
shared `Token` object is modelled by explicit state passing (the token
value returned by a wrapper is the post-call state of the one shared
instance).  Network traffic is modelled by an environment function
giving the response to each successive transport attempt, and every
wrapper additionally reports how many raw HTTP requests it performed.
-/

/-- A JSON value, as decoded from a vendor response body. -/
inductive JVal where
  | null : JVal
  | bool (b : Bool) : JVal
  | num (n : Int) : JVal
  | str (s : String) : JVal
  | arr (xs : List JVal) : JVal
  | obj (fields : List (String × JVal)) : JVal

/-- Python dict lookup `j[k]`; `none` stands for the KeyError (or the
TypeError on a non-mapping) that Python raises. -/
def JVal.getKey : JVal → String → Option JVal
  | .obj fields, k => fields.lookup k
  | _, _ => none

/-- Replace or add the binding of key `k` in an association list. -/
def setField (k : String) (v : JVal) : List (String × JVal) → List (String × JVal)
  | [] => [(k, v)]
  | (k0, v0) :: rest =>
      if k0 = k then (k0, v) :: rest else (k0, v0) :: setField k v rest

/-- Python in-place dict update `j[k] = v`.  On a non-mapping Python
would raise; every update in the source is preceded by a successful
lookup on the same object, so that branch is unreachable and modelled
as the identity. -/
def JVal.setKey : JVal → String → JVal → JVal
  | .obj fields, k, v => .obj (setField k v fields)
  | j, _, _ => j

/-- Python list indexing `j[i]`; `none` stands for the IndexError or
TypeError that Python raises. -/
def JVal.getIdx : JVal → Nat → Option JVal
  | .arr xs, i => xs.get? i
  | _, _ => none

/-- Python truthiness of a decoded JSON value. -/
def JVal.truthy : JVal → Bool
  | .null => false
  | .bool b => b
  | .num n => n ≠ 0
  | .str s => s ≠ ""
  | .arr xs => ¬ xs.isEmpty
  | .obj fields => ¬ fields.isEmpty

/-- Python numeric comparison `j == n` on a decoded JSON value
(Python booleans compare equal to 0 and 1). -/
def JVal.eqNum : JVal → Int → Bool
  | .num m, n => m = n
  | .bool b, n => (if b then (1 : Int) else 0) = n
  | _, _ => false

/-- An HTTP response: its header set and its decoded JSON body. -/
structure Response where
  headers : List (String × String)
  json : JVal

/-- Header lookup `response.headers.get(k)`. -/
def Response.headerGet (r : Response) (k : String) : Option String :=
  r.headers.lookup k

/-- The exceptions the embedded code can raise.
`authError` is the AuthError class of KiaUvoAPIUSA.py;
`requestException` is the generic requests.RequestException raised by
request_with_logging on an unknown application error;
`exception` is the bare Exception raised by login when the sid header
is absent (the role the spec names AuthenticationFailedError);
`keyError` is a KeyError (or TypeError on a non-mapping lookup);
`typeError` is the TypeError raised by Python keyword-argument binding
when a call supplies an undeclared keyword. -/
inductive PyError where
  | authError : PyError
  | requestException : PyError
  | exception : PyError
  | keyError (k : String) : PyError
  | typeError : PyError
deriving DecidableEq, Repr

/-- Modelled from the spec: the Token class is not among the source
files (only its construction site in login and its field accesses are),
so its fields follow the data-model section of the spec together with
the ten-argument token.set call in login.  A field holds `none` while
the Token is unset (freshly constructed) and `some v` once a login has
assigned it; timestamps are modelled as seconds. -/
structure Token where
  access_token : Option JVal := none
  refresh_token : Option JVal := none
  device_id : Option JVal := none
  vehicle_name : Option JVal := none
  vehicle_id : Option JVal := none
  vehicle_regid : Option JVal := none
  vehicle_model : Option JVal := none
  vehicle_registration_date : Option JVal := none
  valid_until : Option JVal := none
  stamp : Option JVal := none

/-- The freshly constructed Token({}): every field unset. -/
def Token.unset : Token := {}

/-- Every field of the Token has been assigned. -/
def Token.fullyPopulated (t : Token) : Prop :=
  t.access_token.isSome ∧ t.refresh_token.isSome ∧ t.device_id.isSome ∧
  t.vehicle_name.isSome ∧ t.vehicle_id.isSome ∧ t.vehicle_regid.isSome ∧
  t.vehicle_model.isSome ∧ t.vehicle_registration_date.isSome ∧
  t.valid_until.isSome ∧ t.stamp.isSome

/-- token.set(...) as called from login: assigns all ten fields. -/
def Token.set (t : Token) (access_token refresh_token device_id vehicle_name
    vehicle_id vehicle_regid vehicle_model vehicle_registration_date
    valid_until stamp : JVal) : Token :=
  { t with
    access_token := some access_token
    refresh_token := some refresh_token
    device_id := some device_id
    vehicle_name := some vehicle_name
    vehicle_id := some vehicle_id
    vehicle_regid := some vehicle_regid
    vehicle_model := some vehicle_model
    vehicle_registration_date := some vehicle_registration_date
    valid_until := some valid_until
    stamp := some stamp }

/-- The response classification performed by the request_with_logging
decorator on a decoded response: statusCode 0 returns the response
unchanged, statusCode 1 with errorType 1 and errorCode 1003 raises
AuthError, anything else raises RequestException.  Lookups follow the
evaluation (and short-circuit) order of the source. -/
def classify (resp : Response) : Except PyError Response :=
  match resp.json.getKey "status" with
  | none => .error (.keyError "status")
  | some st =>
    match st.getKey "statusCode" with
    | none => .error (.keyError "statusCode")
    | some sc =>
      if sc.eqNum 0 then .ok resp
      else if sc.eqNum 1 then
        match st.getKey "errorType" with
        | none => .error (.keyError "errorType")
        | some et =>
          if et.eqNum 1 then
            match st.getKey "errorCode" with
            | none => .error (.keyError "errorCode")
            | some ec =>
              if ec.eqNum 1003 then .error .authError
              else .error .requestException
          else .error .requestException
      else .error .requestException

/-- The observable outcome of one call through the session guard:
the returned value or propagated exception, the post-call state of the
shared Token instance and of the (possibly rewritten) request body,
and the counts of wrapped-call invocations, raw HTTP requests and
login calls performed. -/
structure GuardOutcome where
  result : Except PyError Response
  token : Token
  json_body : Option JVal
  funcCalls : Nat
  requests : Nat
  logins : Nat

/-- The in-place overwrite of the three Token fields the guard assigns
after its fresh login. -/
def refreshToken (token new_token : Token) : Token :=
  { token with
    access_token := new_token.access_token
    vehicle_regid := new_token.vehicle_regid
    valid_until := new_token.valid_until }

/-- The body rewrite performed by the guard before the retry: a truthy
vinKey entry of the kwargs json_body, if any, is replaced by a
singleton list holding the vehicle_regid of the refreshed Token. -/
def rewriteVinKey (json_body : Option JVal) (token1 : Token) : Option JVal :=
  match json_body with
  | none => none
  | some b =>
    if (b.getKey "vinKey").elim false JVal.truthy then
      some (b.setKey "vinKey" (.arr [(token1.vehicle_regid).getD .null]))
    else some b

/-- The request_with_active_session decorator.  `func` is the wrapped
call, indexed by the attempt number and given the current Token state
and request body; it returns its outcome together with the number of
raw HTTP requests it performed.  `login` is the outcome of self.login()
together with the number of requests a login performs.  On AuthError
the guard logs in once, overwrites access_token, vehicle_regid and
valid_until of the same Token in place, rewrites a truthy vinKey entry
of the body to a singleton list holding the refreshed vehicle_regid,
and re-issues the call exactly once; any other exception, and any
exception of the re-issued call, propagates. -/
def request_with_active_session
    (func : Nat → Token → Option JVal → Except PyError Response × Nat)
    (login : Except PyError Token × Nat)
    (token : Token) (json_body : Option JVal) : GuardOutcome :=
  match func 0 token json_body with
  | (.ok resp, q0) => ⟨.ok resp, token, json_body, 1, q0, 0⟩
  | (.error .authError, q0) =>
    match login.1 with
    | .error e => ⟨.error e, token, json_body, 1, q0 + login.2, 1⟩
    | .ok new_token =>
      let token1 : Token := refreshToken token new_token
      let json_body1 : Option JVal := rewriteVinKey json_body token1
      let r1 := func 1 token1 json_body1
      ⟨r1.1, token1, json_body1, 2, q0 + login.2 + r1.2, 1⟩
  | (.error e, q0) => ⟨.error e, token, json_body, 1, q0, 0⟩

/-- The request_with_logging decorator lifted over a wrapped call:
a raised exception of the inner call propagates, a returned response
is classified. -/
def with_logging
    (inner : Nat → Token → Option JVal → Except PyError Response × Nat) :
    Nat → Token → Option JVal → Except PyError Response × Nat :=
  fun n t b =>
    match inner n t b with
    | (.ok resp, q) => (classify resp, q)
    | (.error e, q) => (.error e, q)

/-- The keyword-argument names appearing at the call sites of the two
wrapped request functions. -/
inductive Kw where
  | token : Kw
  | url : Kw
  | jsonBody : Kw
  | headers : Kw
deriving DecidableEq, Repr

/-- Parameter names of the innermost GET function
get_request_with_logging_and_active_session(self, token, url). -/
def getRequestParams : List Kw := [Kw.token, Kw.url]

/-- Parameter names of the innermost POST function
post_request_with_logging_and_active_session(self, token, url, json_body). -/
def postRequestParams : List Kw := [Kw.token, Kw.url, Kw.jsonBody]

/-- Python keyword binding succeeds exactly when every supplied keyword
names a declared parameter; an undeclared keyword raises TypeError
before the function body (and hence any network request) runs.  The
two decorator wrappers accept arbitrary kwargs and forward them, so
binding is checked only at the innermost function. -/
def kwargsBindOk (supplied params : List Kw) : Bool :=
  supplied.all (fun k => params.contains k)

/-- The innermost transport function under both decorators: if keyword
binding succeeds it performs one raw HTTP request, whose response for
attempt `n` the environment `env` supplies; otherwise it raises
TypeError having performed no request. -/
def rawTransport (supplied params : List Kw) (env : Nat → Response) :
    Nat → Token → Option JVal → Except PyError Response × Nat :=
  fun n _ _ =>
    if kwargsBindOk supplied params then (.ok (env n), 1)
    else (.error .typeError, 0)

/-- post_request_with_logging_and_active_session, fully wrapped, at a
call site supplying the keywords `supplied`. -/
def post_request_with_logging_and_active_session
    (supplied : List Kw) (env : Nat → Response)
    (login : Except PyError Token × Nat)
    (token : Token) (json_body : JVal) : GuardOutcome :=
  request_with_active_session
    (with_logging (rawTransport supplied postRequestParams env))
    login token (some json_body)

/-- get_request_with_logging_and_active_session, fully wrapped, at a
call site supplying the keywords `supplied`. -/
def get_request_with_logging_and_active_session
    (supplied : List Kw) (env : Nat → Response)
    (login : Except PyError Token × Nat)
    (token : Token) : GuardOutcome :=
  request_with_active_session
    (with_logging (rawTransport supplied getRequestParams env))
    login token none

/-- The two responses the environment supplies to a login attempt: the
authUser response and the vehicle-list (ownr/gvl) response. -/
structure LoginEnv where
  authResponse : Response
  gvlResponse : Response

/-- login(): posts credentials to prof/authUser, reads the sid response
header (a missing or falsy header raises a bare Exception at once, the
vehicle-list request never being issued), then fetches ownr/gvl, takes
the first entry of payload.vehicleSummary, and returns a Token populated
wholesale by token.set with valid_until = now + 3600 seconds.  The
second component counts the raw HTTP requests issued. -/
def login (now : Int) (env : LoginEnv) : Except PyError Token × Nat :=
  match env.authResponse.headerGet "sid" with
  | none => (.error .exception, 1)
  | some sid =>
    if sid = "" then (.error .exception, 1)
    else
      match (env.gvlResponse.json.getKey "payload").bind
          (fun p => p.getKey "vehicleSummary") with
      | none => (.error (.keyError "vehicleSummary"), 2)
      | some vs =>
        match vs.getIdx 0 with
        | none => (.error (.keyError "vehicleSummary0"), 2)
        | some vehicle_summary =>
          match vehicle_summary.getKey "nickName" with
          | none => (.error (.keyError "nickName"), 2)
          | some vehicle_name =>
          match vehicle_summary.getKey "vehicleIdentifier" with
          | none => (.error (.keyError "vehicleIdentifier"), 2)
          | some vehicle_id =>
          match vehicle_summary.getKey "vin" with
          | none => (.error (.keyError "vin"), 2)
          | some vehicle_vin =>
          match vehicle_summary.getKey "vehicleKey" with
          | none => (.error (.keyError "vehicleKey"), 2)
          | some vehicle_key =>
          match vehicle_summary.getKey "modelName" with
          | none => (.error (.keyError "modelName"), 2)
          | some vehicle_model =>
            let vehicle_registration_date :=
              (vehicle_summary.getKey "enrollmentDate").getD (.str "missing")
            let valid_until : JVal := .num (now + 3600)
            let token := Token.unset.set (.str sid) .null vehicle_vin
              vehicle_name vehicle_id vehicle_key vehicle_model
              vehicle_registration_date valid_until (.str "NoStamp")
            (.ok token, 2)

/-- Dict lookup raising KeyError on absence, as Except. -/
def getK (j : JVal) (k : String) : Except PyError JVal :=
  match j.getKey k with
  | none => .error (.keyError k)
  | some v => .ok v

/-- The request body built by get_cached_vehicle_status; its vinKey
entry is a singleton list holding the vehicle_regid of the Token. -/
def cachedStatusBody (token : Token) : JVal :=
  .obj
    [("vehicleConfigReq", .obj
        [("airTempRange", .str "0"), ("maintenance", .str "0"),
         ("seatHeatCoolOption", .str "0"), ("vehicle", .str "1"),
         ("vehicleFeature", .str "0")]),
     ("vehicleInfoReq", .obj
        [("drivingActivty", .str "0"), ("dtc", .str "1"),
         ("enrollment", .str "1"), ("functionalCards", .str "0"),
         ("location", .str "1"), ("vehicleStatus", .str "1"),
         ("weather", .str "0")]),
     ("vinKey", .arr [(token.vehicle_regid).getD .null])]

/-- The in-place flattening get_cached_vehicle_status performs on the
extracted vehicleStatus mapping: each optional nested section is
reached by direct dict indexing, in source order, and the flattened
fields are written back into the same mapping. -/
def normalizeVehicleStatus (vs0 : JVal) : Except PyError JVal := do
  let syncDate ← getK vs0 "syncDate"
  let utc ← getK syncDate "utc"
  let vs1 := vs0.setKey "time" utc
  let ds1 ← getK vs1 "doorStatus"
  let vs2 := vs1.setKey "doorOpen" ds1
  let ds2 ← getK vs2 "doorStatus"
  let trunk ← getK ds2 "trunk"
  let vs3 := vs2.setKey "trunkOpen" trunk
  let ds3 ← getK vs3 "doorStatus"
  let hood ← getK ds3 "hood"
  let vs4 := vs3.setKey "hoodOpen" hood
  let tirePressure ← getK vs4 "tirePressure"
  let tpAll ← getK tirePressure "all"
  let vs5 := vs4.setKey "tirePressureLamp" (.obj [("tirePressureLampAll", tpAll)])
  let climate5 ← getK vs5 "climate"
  let airCtrl ← getK climate5 "airCtrl"
  let vs6 := vs5.setKey "airCtrlOn" airCtrl
  let climate6 ← getK vs6 "climate"
  let defrost ← getK climate6 "defrost"
  let vs7 := vs6.setKey "defrost" defrost
  let climate7 ← getK vs7 "climate"
  let ha7 ← getK climate7 "heatingAccessory"
  let rearWindow ← getK ha7 "rearWindow"
  let vs8 := vs7.setKey "sideBackWindowHeat" rearWindow
  let climate8 ← getK vs8 "climate"
  let ha8 ← getK climate8 "heatingAccessory"
  let sideMirror ← getK ha8 "sideMirror"
  let vs9 := vs8.setKey "sideMirrorHeat" sideMirror
  let climate9 ← getK vs9 "climate"
  let ha9 ← getK climate9 "heatingAccessory"
  let steeringWheel ← getK ha9 "steeringWheel"
  let vs10 := vs9.setKey "steerWheelHeat" steeringWheel
  let climate10 ← getK vs10 "climate"
  let airTemp ← getK climate10 "airTemp"
  let vs11 := vs10.setKey "airTemp" airTemp
  Except.ok vs11

/-- The normalization performed by get_cached_vehicle_status on the
decoded response body: the sections of the composite response are
extracted by direct dict indexing, in source order, and the
vehicleStatus mapping is flattened in place by normalizeVehicleStatus.
float(mileage) is modelled on numeric values (the only case the wire
format produces). -/
def get_cached_vehicle_status_normalize (response_body : JVal) :
    Except PyError JVal := do
  let payload ← getK response_body "payload"
  let infoList ← getK payload "vehicleInfoList"
  let info0 ← match infoList.getIdx 0 with
    | none => Except.error (PyError.keyError "vehicleInfoList0")
    | some v => Except.ok v
  let lastVehicleInfo ← getK info0 "lastVehicleInfo"
  let vehicleStatusRpt ← getK lastVehicleInfo "vehicleStatusRpt"
  let vs0 ← getK vehicleStatusRpt "vehicleStatus"
  let vehicleConfig ← getK info0 "vehicleConfig"
  let vehicleDetail ← getK vehicleConfig "vehicleDetail"
  let vehicle ← getK vehicleDetail "vehicle"
  let mileage ← getK vehicle "mileage"
  let mileageVal ← match mileage with
    | .num n => Except.ok n
    | _ => Except.error PyError.typeError
  let location ← getK lastVehicleInfo "location"
  let vs11 ← normalizeVehicleStatus vs0
  Except.ok (JVal.obj
    [("vehicleStatus", vs11),
     ("odometer", .obj [("value", .num mileageVal), ("unit", .num 3)]),
     ("vehicleLocation", location)])

/-- get_cached_vehicle_status: a POST through the session guard with
the composite body, then normalization of the decoded response. -/
def get_cached_vehicle_status (env : Nat → Response)
    (lg : Except PyError Token × Nat) (token : Token) :
    Except PyError JVal × GuardOutcome :=
  let o := post_request_with_logging_and_active_session
    [Kw.token, Kw.url, Kw.jsonBody] env lg token (cachedStatusBody token)
  match o.result with
  | .ok resp => (get_cached_vehicle_status_normalize resp.json, o)
  | .error e => (.error e, o)

/-- Observable timing events of the action poller: a sleep of a given
number of seconds, or one poll of the command-status endpoint. -/
inductive PollEvent where
  | sleep (seconds : Nat) : PollEvent
  | poll : PollEvent
deriving DecidableEq, Repr

/-- The completion test of check_action_status on one decoded poll
response: all(v == 0 for v in response_json["payload"].values()). -/
def payloadAllZero (j : JVal) : Except PyError Bool :=
  match j.getKey "payload" with
  | none => .error (.keyError "payload")
  | some (.obj fields) => .ok (fields.all (fun p => p.2.eqNum 0))
  | some _ => .error .typeError

/-- The poll loop of check_action_status over the sequence of decoded
poll responses the backend returns; `acc` accumulates the timing trace.
An exhausted response list stands for the loop still running (the
source loop has no iteration cap), hence `none`. -/
def runPolls : List JVal → List PollEvent →
    Option (List PollEvent × Except PyError Bool)
  | [], _ => none
  | r :: rest, acc =>
    let acc1 := acc ++ [.sleep 10, .poll]
    match payloadAllZero r with
    | .error e => some (acc1, .error e)
    | .ok true => some (acc1, .ok true)
    | .ok false => runPolls rest acc1

/-- check_action_status: an initial grace sleep of 15 seconds, then
repeatedly sleep 10 seconds and poll, until every sub-check of the
payload mapping reports the zero code. -/
def check_action_status (responses : List JVal) :
    Option (List PollEvent × Except PyError Bool) :=
  runPolls responses [.sleep 15]

/-- Outcome of a vehicle-command method: the propagated exception or
normal entry into the poll, the Command Handle handed to
check_action_status (none when the poller is never reached), and the
raw HTTP requests performed before the poll. -/
structure CommandOutcome where
  result : Except PyError Unit
  pollHandle : Option String
  requests : Nat

/-- Shared tail of every polling command: on a returned response the
Command Handle is read from response.headers["Xid"] (a direct index:
a missing header raises KeyError) and handed to check_action_status. -/
def runCommand (o : GuardOutcome) : CommandOutcome :=
  match o.result with
  | .error e => ⟨.error e, none, o.requests⟩
  | .ok resp =>
    match resp.headerGet "Xid" with
    | none => ⟨.error (.keyError "Xid"), none, o.requests⟩
    | some xid => ⟨.ok (), some xid, o.requests⟩

/-- The API base URL of the USA client. -/
def API_URL : String := "https://api.owners.kia.com/apigw/v1/"

/-- lock_action: chooses the lock or unlock url, builds a headers dict,
and calls the GET wrapper passing token, url and additionally a headers
keyword argument that the innermost function does not declare. -/
def lock_action (env : Nat → Response) (lg : Except PyError Token × Nat)
    (token : Token) (action : String) : CommandOutcome :=
  let _url : String :=
    if action = "close" then API_URL ++ "rems/door/lock"
    else API_URL ++ "rems/door/unlock"
  runCommand (get_request_with_logging_and_active_session
    [Kw.token, Kw.url, Kw.headers] env lg token)

/-- The remoteClimate request body built by start_climate; the wire
temperature value is str(set_temp) with unit code 1, the duration
carries unit code 4, and each accessory-heating flag is int(heating). -/
def climateBody (set_temp : Int) (duration : Int) (defrost : Bool)
    (climate : Bool) (heating : Bool) : JVal :=
  .obj [("remoteClimate", .obj
    [("airCtrl", .bool climate),
     ("airTemp", .obj [("unit", .num 1), ("value", .str (toString set_temp))]),
     ("defrost", .bool defrost),
     ("heatingAccessory", .obj
        [("rearWindow", .num (if heating then 1 else 0)),
         ("sideMirror", .num (if heating then 1 else 0)),
         ("steeringWheel", .num (if heating then 1 else 0))]),
     ("ignitionOnDuration", .obj [("unit", .num 4), ("value", .num duration)])])]

/-- start_climate: POST the remoteClimate body through the wrappers,
then hand the Xid response header to the poller. -/
def start_climate (env : Nat → Response) (lg : Except PyError Token × Nat)
    (token : Token) (set_temp duration : Int)
    (defrost climate heating : Bool) : CommandOutcome :=
  runCommand (post_request_with_logging_and_active_session
    [Kw.token, Kw.url, Kw.jsonBody] env lg token
    (climateBody set_temp duration defrost climate heating))

/-- stop_climate: GET through the wrappers, then hand the Xid response
header to the poller. -/
def stop_climate (env : Nat → Response) (lg : Except PyError Token × Nat)
    (token : Token) : CommandOutcome :=
  runCommand (get_request_with_logging_and_active_session
    [Kw.token, Kw.url] env lg token)

/-- start_charge: POST the chargeRatio body through the wrappers, then
hand the Xid response header to the poller. -/
def start_charge (env : Nat → Response) (lg : Except PyError Token × Nat)
    (token : Token) : CommandOutcome :=
  runCommand (post_request_with_logging_and_active_session
    [Kw.token, Kw.url, Kw.jsonBody] env lg token
    (.obj [("chargeRatio", .num 100)]))

/-- stop_charge: GET through the wrappers, then hand the Xid response
header to the poller. -/
def stop_charge (env : Nat → Response) (lg : Except PyError Token × Nat)
    (token : Token) : CommandOutcome :=
  runCommand (get_request_with_logging_and_active_session
    [Kw.token, Kw.url] env lg token)

/-- update_vehicle_status: a single POST with requestType 0 through the
wrappers; the response is dropped and no completion poll is performed. -/
def update_vehicle_status (env : Nat → Response)
    (lg : Except PyError Token × Nat) (token : Token) : CommandOutcome :=
  let o := post_request_with_logging_and_active_session
    [Kw.token, Kw.url, Kw.jsonBody] env lg token
    (.obj [("requestType", .num 0)])
  ⟨o.result.map (fun _ => ()), none, o.requests⟩

/-- An untyped Python constructor-argument value. -/
inductive PyVal where
  | str (s : String) : PyVal
  | int (n : Int) : PyVal
  | bool (b : Bool) : PyVal
deriving DecidableEq, Repr

/-- The configuration attributes stored by KiaUvoApiImpl.__init__. -/
structure ImplState where
  username : PyVal
  password : PyVal
  pin : PyVal
  use_email_with_geocode_api : PyVal
  region : PyVal
  brand : PyVal

/-- KiaUvoApiImpl.__init__(self, username, password, pin, region,
brand, use_email_with_geocode_api): stores each parameter under its
own name. -/
def KiaUvoApiImpl_init (username password pin region brand
    use_email_with_geocode_api : PyVal) : ImplState :=
  { username := username, password := password, pin := pin,
    use_email_with_geocode_api := use_email_with_geocode_api,
    region := region, brand := brand }

/-- KiaUvoAPIUSA.__init__(self, username, password, region, brand,
use_email_with_geocode_api, pin): forwards its arguments positionally,
in that order, to the base constructor. -/
def KiaUvoAPIUSA_init (username password region brand
    use_email_with_geocode_api pin : PyVal) : ImplState :=
  KiaUvoApiImpl_init username password region brand
    use_email_with_geocode_api pin

/-! Helper lemmas about the embedding. -/

lemma guard_first_ok
    (func : Nat → Token → Option JVal → Except PyError Response × Nat)
    (lgn : Except PyError Token × Nat) (t : Token) (b : Option JVal)
    (resp : Response) (q : Nat) (h : func 0 t b = (.ok resp, q)) :
    request_with_active_session func lgn t b = ⟨.ok resp, t, b, 1, q, 0⟩ := by
  simp [request_with_active_session, h]

lemma guard_first_other
    (func : Nat → Token → Option JVal → Except PyError Response × Nat)
    (lgn : Except PyError Token × Nat) (t : Token) (b : Option JVal)
    (e : PyError) (q : Nat) (hne : e ≠ PyError.authError)
    (h : func 0 t b = (.error e, q)) :
    request_with_active_session func lgn t b = ⟨.error e, t, b, 1, q, 0⟩ := by
  cases e <;> simp_all [request_with_active_session]

lemma guard_auth_login_ok
    (func : Nat → Token → Option JVal → Except PyError Response × Nat)
    (lgn : Except PyError Token × Nat) (t : Token) (b : Option JVal)
    (q : Nat) (nt : Token)
    (h : func 0 t b = (.error .authError, q)) (hl : lgn.1 = .ok nt) :
    request_with_active_session func lgn t b =
      ⟨(func 1 (refreshToken t nt) (rewriteVinKey b (refreshToken t nt))).1,
       refreshToken t nt, rewriteVinKey b (refreshToken t nt), 2,
       q + lgn.2 +
         (func 1 (refreshToken t nt) (rewriteVinKey b (refreshToken t nt))).2,
       1⟩ := by
  simp [request_with_active_session, h, hl]

lemma guard_auth_login_err
    (func : Nat → Token → Option JVal → Except PyError Response × Nat)
    (lgn : Except PyError Token × Nat) (t : Token) (b : Option JVal)
    (q : Nat) (e : PyError)
    (h : func 0 t b = (.error .authError, q)) (hl : lgn.1 = .error e) :
    request_with_active_session func lgn t b =
      ⟨.error e, t, b, 1, q + lgn.2, 1⟩ := by
  simp [request_with_active_session, h, hl]

lemma eqNum_ne (j : JVal) (m n : Int) (hmn : m ≠ n)
    (h1 : j.eqNum m = true) : j.eqNum n = false := by
  cases j with
  | num k => simp [JVal.eqNum] at h1 ⊢; omega
  | bool b => cases b <;> simp [JVal.eqNum] at h1 ⊢ <;> omega
  | _ => simp [JVal.eqNum] at h1

lemma lookup_setField_self (k : String) (v : JVal)
    (fs : List (String × JVal)) :
    (setField k v fs).lookup k = some v := by
  induction fs with
  | nil => simp [setField, List.lookup]
  | cons p rest ih =>
    obtain ⟨k0, v0⟩ := p
    by_cases h : k0 = k
    · subst h; simp [setField, List.lookup]
    · have hb : (k == k0) = false := beq_eq_false_iff_ne.mpr (Ne.symm h)
      simp [setField, h, List.lookup, hb, ih]

lemma lookup_setField_ne (k k' : String) (v : JVal)
    (fs : List (String × JVal)) (h : k' ≠ k) :
    (setField k v fs).lookup k' = fs.lookup k' := by
  induction fs with
  | nil =>
    have hb : (k' == k) = false := beq_eq_false_iff_ne.mpr h
    simp [setField, List.lookup, hb]
  | cons p rest ih =>
    obtain ⟨k0, v0⟩ := p
    by_cases h0 : k0 = k
    · subst h0
      have hb : (k' == k0) = false := beq_eq_false_iff_ne.mpr h
      simp [setField, List.lookup, hb]
    · simp [setField, h0, List.lookup, ih]

lemma getKey_some_obj (j : JVal) (k : String) (v : JVal)
    (h : j.getKey k = some v) : ∃ fs, j = .obj fs := by
  cases j <;> simp [JVal.getKey] at h ⊢

lemma getKey_setKey_self (fs : List (String × JVal)) (k : String) (v : JVal) :
    ((JVal.obj fs).setKey k v).getKey k = some v := by
  simp [JVal.setKey, JVal.getKey, lookup_setField_self]

lemma getKey_setKey_ne (fs : List (String × JVal)) (k k' : String) (v : JVal)
    (h : k' ≠ k) :
    ((JVal.obj fs).setKey k v).getKey k' = (JVal.obj fs).getKey k' := by
  simp [JVal.setKey, JVal.getKey, lookup_setField_ne _ _ _ _ h]

/-! Sample responses used in witnesses and concrete scenarios. -/

/-- The status envelope of a session-invalid response. -/
def sessionInvalidStatus : JVal :=
  .obj [("statusCode", .num 1), ("errorType", .num 1),
        ("errorCode", .num 1003)]

/-- A response whose envelope reports the session-invalid triple. -/
def sessionInvalidResponse : Response :=
  ⟨[], .obj [("status", sessionInvalidStatus)]⟩

/-- A success response carrying a command identifier header. -/
def okXidResponse : Response :=
  ⟨[("Xid", "xid-1")], .obj [("status", .obj [("statusCode", .num 0)])]⟩

/-- A backend that reports session-invalid on every attempt, wrapped as
the logging stage sees it: the wrapped call raises AuthError after one
raw request, on every attempt. -/
def alwaysAuthErr : Nat → Token → Option JVal → Except PyError Response × Nat :=
  fun _ _ _ => (.error .authError, 1)

/-- C10: constructing the USA client permutes its configuration: the
subclass passes (username, password, region, brand, geocode flag, pin)
positionally to a base constructor declared as (username, password,
pin, region, brand, geocode flag), so the stored pin equals the
supplied region, the stored region the supplied brand, the stored
brand the supplied geocode flag, and the stored geocode flag the
supplied pin. -/
theorem usa_init_permutes_config (u p r b g q : PyVal) :
    (KiaUvoAPIUSA_init u p r b g q).pin = r ∧
    (KiaUvoAPIUSA_init u p r b g q).region = b ∧
    (KiaUvoAPIUSA_init u p r b g q).brand = g ∧
    (KiaUvoAPIUSA_init u p r b g q).use_email_with_geocode_api = q ∧
    (KiaUvoAPIUSA_init u p r b g q).username = u ∧
    (KiaUvoAPIUSA_init u p r b g q).password = p :=
  ⟨rfl, rfl, rfl, rfl, rfl, rfl⟩

/-- C9: for every environment, login outcome, token and action,
lock_action passes a headers keyword through the wrappers to an
innermost function declaring only token and url, so keyword binding
raises TypeError unconditionally: the call fails, no raw HTTP request
is performed, and the poller is never reached. -/
theorem lock_action_always_type_error
    (env : Nat → Response) (lg : Except PyError Token × Nat)
    (t : Token) (action : String) :
    (lock_action env lg t action).result = .error .typeError ∧
    (lock_action env lg t action).requests = 0 ∧
    (lock_action env lg t action).pollHandle = none :=
  ⟨rfl, rfl, rfl⟩

/-- C1: re-authentication happens at most once per logical call: the
guard invokes the wrapped call at most twice; when the first attempt
raises AuthError it performs exactly one login and, if that login
succeeds, re-issues the call exactly once with the refreshed state,
whose outcome (success or any failure) is surfaced unchanged; a call
whose first attempt does not raise AuthError is never retried; and the
fully composed POST wrapper over a backend that always reports
session-invalid performs exactly two raw transport attempts, one
login, and surfaces AuthError. -/
theorem session_guard_reauth_at_most_once
    (func : Nat → Token → Option JVal → Except PyError Response × Nat)
    (lgn : Except PyError Token × Nat) (t : Token) (b : Option JVal) :
    (request_with_active_session func lgn t b).funcCalls ≤ 2 ∧
    ((func 0 t b).1 = .error .authError →
      (request_with_active_session func lgn t b).logins = 1 ∧
      (∀ nt, lgn.1 = .ok nt →
        (request_with_active_session func lgn t b).funcCalls = 2 ∧
        (request_with_active_session func lgn t b).result =
          (func 1 (refreshToken t nt)
            (rewriteVinKey b (refreshToken t nt))).1)) ∧
    ((func 0 t b).1 ≠ .error .authError →
      (request_with_active_session func lgn t b).funcCalls = 1 ∧
      (request_with_active_session func lgn t b).logins = 0 ∧
      (request_with_active_session func lgn t b).result = (func 0 t b).1) ∧
    (∀ (t2 : Token) (b2 : JVal) (nt : Token),
      (post_request_with_logging_and_active_session
        [Kw.token, Kw.url, Kw.jsonBody] (fun _ => sessionInvalidResponse)
        (.ok nt, 0) t2 b2).result = .error .authError ∧
      (post_request_with_logging_and_active_session
        [Kw.token, Kw.url, Kw.jsonBody] (fun _ => sessionInvalidResponse)
        (.ok nt, 0) t2 b2).requests = 2 ∧
      (post_request_with_logging_and_active_session
        [Kw.token, Kw.url, Kw.jsonBody] (fun _ => sessionInvalidResponse)
        (.ok nt, 0) t2 b2).funcCalls = 2 ∧
      (post_request_with_logging_and_active_session
        [Kw.token, Kw.url, Kw.jsonBody] (fun _ => sessionInvalidResponse)
        (.ok nt, 0) t2 b2).logins = 1) := by
  refine ⟨?_, ?_, ?_, ?_⟩
  · rcases hf : func 0 t b with ⟨r0, q0⟩
    rcases r0 with e | resp
    · by_cases he : e = PyError.authError
      · subst he
        rcases hl : lgn.1 with e1 | nt
        · rw [guard_auth_login_err func lgn t b q0 e1 hf hl]
          exact Nat.le_succ 1
        · rw [guard_auth_login_ok func lgn t b q0 nt hf hl]
      · rw [guard_first_other func lgn t b e q0 he hf]
        exact Nat.le_succ 1
    · rw [guard_first_ok func lgn t b resp q0 hf]
      exact Nat.le_succ 1
  · intro h0
    rcases hf : func 0 t b with ⟨r0, q0⟩
    rw [hf] at h0
    have hr : r0 = Except.error PyError.authError := h0
    subst hr
    constructor
    · rcases hl : lgn.1 with e1 | nt
      · rw [guard_auth_login_err func lgn t b q0 e1 hf hl]
      · rw [guard_auth_login_ok func lgn t b q0 nt hf hl]
    · intro nt hl
      rw [guard_auth_login_ok func lgn t b q0 nt hf hl]
      exact ⟨rfl, rfl⟩
  · intro h0
    rcases hf : func 0 t b with ⟨r0, q0⟩
    rw [hf] at h0
    rcases r0 with e | resp
    · have he : e ≠ PyError.authError := by
        intro hc; subst hc; exact h0 rfl
      rw [guard_first_other func lgn t b e q0 he hf]
      exact ⟨rfl, rfl, rfl⟩
    · rw [guard_first_ok func lgn t b resp q0 hf]
      exact ⟨rfl, rfl, rfl⟩
  · intro t2 b2 nt
    exact ⟨rfl, rfl, rfl, rfl⟩

/-- Witness for C1: with a backend raising AuthError on every attempt
and a successful login, the guard performs exactly one login and two
wrapped-call invocations. -/
theorem session_guard_reauth_at_most_once_witness :
    (request_with_active_session alwaysAuthErr (Except.ok Token.unset, 0)
        Token.unset none).logins = 1 ∧
    (request_with_active_session alwaysAuthErr (Except.ok Token.unset, 0)
        Token.unset none).funcCalls = 2 :=
  ⟨((session_guard_reauth_at_most_once alwaysAuthErr
      (Except.ok Token.unset, 0) Token.unset none).2.1 rfl).1,
   (((session_guard_reauth_at_most_once alwaysAuthErr
      (Except.ok Token.unset, 0) Token.unset none).2.1 rfl).2
      Token.unset rfl).1⟩

/-- A prior vehicle registration identifier. -/
def oldRegid : JVal := .str "OLDKEY"

/-- A refreshed vehicle registration identifier. -/
def newRegid : JVal := .str "NEWKEY"

/-- A token whose registration identifier is the prior value. -/
def tokenOld : Token := { vehicle_regid := some oldRegid }

/-- The token a fresh login returns in the witness scenario. -/
def tokenNew : Token :=
  { access_token := some (.str "sid2"), vehicle_regid := some newRegid }

/-- A request body whose vinKey entry references the prior value. -/
def vinBody : JVal := .obj [("vinKey", .arr [oldRegid])]

/-- C2: on AuthError the guard overwrites the access token and the
vehicle registration identifier of the same Token instance in place
(the post-call state every holder of the reference observes), and a
request body whose vinKey entry referenced the prior registration
identifier is rewritten to a singleton list holding the refreshed one
before the retry, which is issued with exactly the corrected body. -/
theorem session_guard_refreshes_token_and_body
    (func : Nat → Token → Option JVal → Except PyError Response × Nat)
    (lgn : Except PyError Token × Nat) (t nt : Token)
    (b old new : JVal) (q : Nat)
    (hf : func 0 t (some b) = (.error .authError, q))
    (hl : lgn.1 = .ok nt)
    (_hold : t.vehicle_regid = some old)
    (hvin : b.getKey "vinKey" = some (.arr [old]))
    (hnew : nt.vehicle_regid = some new) :
    (request_with_active_session func lgn t (some b)).token.access_token =
        nt.access_token ∧
    (request_with_active_session func lgn t (some b)).token.vehicle_regid =
        some new ∧
    (request_with_active_session func lgn t (some b)).json_body =
        some (b.setKey "vinKey" (.arr [new])) ∧
    ((request_with_active_session func lgn t (some b)).json_body.bind
        (fun j => j.getKey "vinKey")) = some (.arr [new]) ∧
    (request_with_active_session func lgn t (some b)).result =
      (func 1 (request_with_active_session func lgn t (some b)).token
        (request_with_active_session func lgn t (some b)).json_body).1 := by
  rw [guard_auth_login_ok func lgn t (some b) q nt hf hl]
  have hbody : rewriteVinKey (some b) (refreshToken t nt) =
      some (b.setKey "vinKey" (.arr [new])) := by
    simp [rewriteVinKey, refreshToken, hvin, JVal.truthy, hnew]
  obtain ⟨fs, rfl⟩ := getKey_some_obj b "vinKey" _ hvin
  refine ⟨rfl, ?_, ?_, ?_, rfl⟩
  · simp [refreshToken, hnew]
  · exact hbody
  · rw [hbody]
    simp [getKey_setKey_self]

/-- Witness for C2 at a concrete token, login result and body. -/
theorem session_guard_refreshes_token_and_body_witness :
    ((request_with_active_session alwaysAuthErr (Except.ok tokenNew, 0)
        tokenOld (some vinBody)).json_body.bind
      (fun j => j.getKey "vinKey")) = some (.arr [newRegid]) :=
  (session_guard_refreshes_token_and_body alwaysAuthErr
    (Except.ok tokenNew, 0) tokenOld tokenNew vinBody oldRegid newRegid 1
    rfl rfl rfl rfl rfl).2.2.2.1

/-- C3: the classification of a decoded response envelope is a
trichotomy on its status fields: statusCode 0 returns the response
unchanged; statusCode 1 with errorType 1 and errorCode 1003 raises
AuthError; every other combination raises the generic
RequestException, which the guard surfaces without retrying. -/
theorem request_with_logging_trichotomy (resp : Response)
    (st sc et ec : JVal)
    (hst : resp.json.getKey "status" = some st)
    (hsc : st.getKey "statusCode" = some sc)
    (het : st.getKey "errorType" = some et)
    (hec : st.getKey "errorCode" = some ec) :
    (sc.eqNum 0 = true → classify resp = .ok resp) ∧
    (sc.eqNum 1 = true → et.eqNum 1 = true → ec.eqNum 1003 = true →
      classify resp = .error .authError) ∧
    (sc.eqNum 0 = false →
      ¬(sc.eqNum 1 = true ∧ et.eqNum 1 = true ∧ ec.eqNum 1003 = true) →
      classify resp = .error .requestException) ∧
    (∀ (func : Nat → Token → Option JVal → Except PyError Response × Nat)
       (lgn : Except PyError Token × Nat) (t : Token) (b : Option JVal)
       (q : Nat),
       func 0 t b = (.error .requestException, q) →
       (request_with_active_session func lgn t b).result =
           .error .requestException ∧
       (request_with_active_session func lgn t b).funcCalls = 1 ∧
       (request_with_active_session func lgn t b).logins = 0) := by
  refine ⟨?_, ?_, ?_, ?_⟩
  · intro h0
    simp [classify, hst, hsc, h0]
  · intro h1 h2 h3
    have h0 : sc.eqNum 0 = false := eqNum_ne sc 1 0 (by norm_num) h1
    simp [classify, hst, hsc, het, hec, h0, h1, h2, h3]
  · intro h0 hn
    by_cases h1 : sc.eqNum 1 = true
    · by_cases h2 : et.eqNum 1 = true
      · have h3 : ec.eqNum 1003 = false := by
          rcases hc : ec.eqNum 1003 with _ | _
          · rfl
          · exact absurd ⟨h1, h2, hc⟩ hn
        simp [classify, hst, hsc, het, hec, h0, h1, h2, h3]
      · have h2f : et.eqNum 1 = false := by
          rcases hc : et.eqNum 1 with _ | _
          · rfl
          · exact absurd hc h2
        simp [classify, hst, hsc, het, h0, h1, h2f]
    · have h1f : sc.eqNum 1 = false := by
        rcases hc : sc.eqNum 1 with _ | _
        · rfl
        · exact absurd hc h1
      simp [classify, hst, hsc, h0, h1f]
  · intro func lgn t b q hf
    have hne : PyError.requestException ≠ PyError.authError := by
      intro hc; cases hc
    rw [guard_first_other func lgn t b _ q hne hf]
    exact ⟨rfl, rfl, rfl⟩

/-- Witness for C3: the session-invalid envelope is classified as
AuthError. -/
theorem request_with_logging_trichotomy_witness :
    classify sessionInvalidResponse = .error .authError :=
  (request_with_logging_trichotomy sessionInvalidResponse
    sessionInvalidStatus (.num 1) (.num 1) (.num 1003)
    rfl rfl rfl rfl).2.1 rfl rfl rfl

/-- C5: a login whose authentication response lacks the sid header
fails at once with the bare Exception (the failure mode the spec names
AuthenticationFailedError) having issued exactly the one credentials
request: the vehicle-list fetch is never issued. -/
theorem login_missing_sid_fails (now : Int) (env : LoginEnv)
    (h : env.authResponse.headerGet "sid" = none) :
    login now env = (.error .exception, 1) := by
  simp [login, h]

/-- A login environment whose authentication response has no sid
header. -/
def noSidLoginEnv : LoginEnv := ⟨⟨[], .null⟩, ⟨[], .null⟩⟩

/-- Witness for C5 at a concrete headerless response. -/
theorem login_missing_sid_fails_witness :
    login 0 noSidLoginEnv = (.error .exception, 1) :=
  login_missing_sid_fails 0 noSidLoginEnv rfl

/-- C7: a successful login returns a fully populated Token whose
identifying fields come from the first entry of the fetched vehicle
list and whose validity timestamp is the current time plus one hour. -/
theorem login_success_returns_populated_token
    (now : Int) (env : LoginEnv) (sid : String)
    (vlist v0 nickname vid vin vkey model : JVal)
    (hsid : env.authResponse.headerGet "sid" = some sid)
    (hne : sid ≠ "")
    (hvl : (env.gvlResponse.json.getKey "payload").bind
        (fun p => p.getKey "vehicleSummary") = some vlist)
    (h0 : vlist.getIdx 0 = some v0)
    (hnick : v0.getKey "nickName" = some nickname)
    (hvid : v0.getKey "vehicleIdentifier" = some vid)
    (hvin : v0.getKey "vin" = some vin)
    (hkey : v0.getKey "vehicleKey" = some vkey)
    (hmod : v0.getKey "modelName" = some model) :
    ∃ tok, login now env = (.ok tok, 2) ∧ tok.fullyPopulated ∧
      tok.access_token = some (.str sid) ∧
      tok.vehicle_name = some nickname ∧
      tok.vehicle_id = some vid ∧
      tok.device_id = some vin ∧
      tok.vehicle_regid = some vkey ∧
      tok.vehicle_model = some model ∧
      tok.vehicle_registration_date =
        some ((v0.getKey "enrollmentDate").getD (.str "missing")) ∧
      tok.valid_until = some (.num (now + 3600)) ∧
      tok.stamp = some (.str "NoStamp") := by
  have hlogin : login now env =
      (.ok (Token.unset.set (.str sid) .null vin nickname vid vkey model
        ((v0.getKey "enrollmentDate").getD (.str "missing"))
        (.num (now + 3600)) (.str "NoStamp")), 2) := by
    simp [login, hsid, hne, hvl, h0, hnick, hvid, hvin, hkey, hmod]
  refine ⟨_, hlogin, ?_, rfl, rfl, rfl, rfl, rfl, rfl, rfl, rfl, rfl⟩
  exact ⟨rfl, rfl, rfl, rfl, rfl, rfl, rfl, rfl, rfl, rfl⟩

/-- The first vehicle summary of the witness vehicle list. -/
def goodVehicleSummary : JVal :=
  .obj [("nickName", .str "car"), ("vehicleIdentifier", .str "id1"),
        ("vin", .str "vin1"), ("vehicleKey", .str "key1"),
        ("modelName", .str "model1"), ("enrollmentDate", .str "2021")]

/-- A login environment with a sid header and one vehicle. -/
def goodLoginEnv : LoginEnv :=
  ⟨⟨[("sid", "sid-1")], .null⟩,
   ⟨[], .obj [("payload", .obj
      [("vehicleSummary", .arr [goodVehicleSummary])])]⟩⟩

/-- Witness for C7 at a concrete login environment. -/
theorem login_success_returns_populated_token_witness :
    ∃ tok, login 0 goodLoginEnv = (.ok tok, 2) ∧ tok.fullyPopulated ∧
      tok.access_token = some (.str "sid-1") ∧
      tok.vehicle_name = some (.str "car") ∧
      tok.vehicle_id = some (.str "id1") ∧
      tok.device_id = some (.str "vin1") ∧
      tok.vehicle_regid = some (.str "key1") ∧
      tok.vehicle_model = some (.str "model1") ∧
      tok.vehicle_registration_date =
        some ((goodVehicleSummary.getKey "enrollmentDate").getD
          (.str "missing")) ∧
      tok.valid_until = some (.num (0 + 3600)) ∧
      tok.stamp = some (.str "NoStamp") :=
  login_success_returns_populated_token 0 goodLoginEnv "sid-1"
    (.arr [goodVehicleSummary]) goodVehicleSummary
    (.str "car") (.str "id1") (.str "vin1") (.str "key1") (.str "model1")
    rfl (by decide) rfl rfl rfl rfl rfl rfl rfl

/-- The timing trace of n polls: each preceded by the fixed-interval
sleep. -/
def pollTrace : Nat → List PollEvent
  | 0 => []
  | n + 1 => pollTrace n ++ [.sleep 10, .poll]

lemma runPolls_shift (rs : List JVal) (acc : List PollEvent) :
    runPolls rs acc =
      (runPolls rs []).map (fun p => (acc ++ p.1, p.2)) := by
  induction rs generalizing acc with
  | nil => simp [runPolls]
  | cons r rest ih =>
    cases hz : payloadAllZero r with
    | error e => simp [runPolls, hz]
    | ok bo =>
      cases bo
      · simp only [runPolls, hz]
        rw [ih (acc ++ [PollEvent.sleep 10, PollEvent.poll]),
            ih ([] ++ [PollEvent.sleep 10, PollEvent.poll])]
        cases runPolls rest [] <;> simp
      · simp [runPolls, hz]

lemma pollTrace_succ (n : Nat) :
    pollTrace (n + 1) =
      [PollEvent.sleep 10, PollEvent.poll] ++ pollTrace n := by
  induction n with
  | zero => rfl
  | succ m ihm =>
    show pollTrace (m + 1) ++ [PollEvent.sleep 10, PollEvent.poll] = _
    rw [ihm, List.append_assoc]
    have h2 : pollTrace m ++ [PollEvent.sleep 10, PollEvent.poll] =
        [PollEvent.sleep 10, PollEvent.poll] ++ pollTrace m := ihm
    rw [h2]

lemma runPolls_completes (k : Nat) : ∀ (rs : List JVal),
    (∀ j, j < k → (rs.get? j).map payloadAllZero = some (.ok false)) →
    (rs.get? k).map payloadAllZero = some (.ok true) →
    runPolls rs [] = some (pollTrace (k + 1), .ok true) := by
  induction k with
  | zero =>
    intro rs hlt hk
    cases rs with
    | nil => simp at hk
    | cons r rest =>
      simp at hk
      simp [runPolls, hk, pollTrace]
  | succ k ih =>
    intro rs hlt hk
    cases rs with
    | nil => simp at hk
    | cons r rest =>
      have h0 : payloadAllZero r = .ok false := by
        have h00 := hlt 0 (Nat.succ_pos k)
        simpa using h00
      have hrest : ∀ j, j < k →
          (rest.get? j).map payloadAllZero = some (.ok false) := by
        intro j hj
        have hjj := hlt (j + 1) (Nat.succ_lt_succ hj)
        simpa using hjj
      have hkrest : (rest.get? k).map payloadAllZero = some (.ok true) := by
        simpa using hk
      simp only [runPolls, h0, List.nil_append]
      rw [runPolls_shift rest [.sleep 10, .poll], ih rest hrest hkrest]
      simp [pollTrace_succ]

/-- The first simulated poll response: sub-check a still pending. -/
def pollResp1 : JVal :=
  .obj [("payload", .obj [("a", .num 1), ("b", .num 0)])]

/-- The second simulated poll response: every sub-check zero. -/
def pollResp2 : JVal :=
  .obj [("payload", .obj [("a", .num 0), ("b", .num 0)])]

/-- C4: the action poller sleeps the 15-second grace period before its
first poll, precedes every poll by the fixed 10-second interval sleep,
and declares completion exactly at the first poll whose payload mapping
has every sub-check zero; on the simulated sequence a-pending then
all-zero it completes only after the second poll. -/
theorem check_action_status_spec :
    (∀ (rs : List JVal) (tr : List PollEvent) (res : Except PyError Bool),
      check_action_status rs = some (tr, res) →
      ∃ tl, tr = PollEvent.sleep 15 :: tl) ∧
    (∀ (k : Nat) (rs : List JVal),
      (∀ j, j < k → (rs.get? j).map payloadAllZero = some (.ok false)) →
      (rs.get? k).map payloadAllZero = some (.ok true) →
      check_action_status rs =
        some (PollEvent.sleep 15 :: pollTrace (k + 1), .ok true)) ∧
    check_action_status [pollResp1] = none ∧
    check_action_status [pollResp1, pollResp2] =
      some ([PollEvent.sleep 15, PollEvent.sleep 10, PollEvent.poll,
             PollEvent.sleep 10, PollEvent.poll], .ok true) := by
  refine ⟨?_, ?_, ?_, ?_⟩
  · intro rs tr res h
    rw [check_action_status, runPolls_shift rs [.sleep 15]] at h
    rcases hr : runPolls rs [] with _ | ⟨tl, r⟩
    · rw [hr] at h
      simp at h
    · rw [hr] at h
      simp at h
      exact ⟨tl, h.1.symm⟩
  · intro k rs hlt hk
    rw [check_action_status, runPolls_shift rs [.sleep 15],
        runPolls_completes k rs hlt hk]
    rfl
  · rfl
  · rfl

/-- Witness for C4: the two-step simulated sequence completes after the
second poll with the mandated trace. -/
theorem check_action_status_spec_witness :
    check_action_status [pollResp1, pollResp2] =
      some (PollEvent.sleep 15 :: pollTrace 2, .ok true) :=
  check_action_status_spec.2.1 1 [pollResp1, pollResp2]
    (fun j hj => by
      have hj0 : j = 0 := by omega
      subst hj0
      rfl)
    rfl

/-- A vehicleStatus section lacking the optional tire-pressure data. -/
def vsNoTire : JVal :=
  .obj [("syncDate", .obj [("utc", .str "20211018")]),
        ("doorStatus", .obj [("frontLeft", .num 0), ("trunk", .num 0),
                             ("hood", .num 0)]),
        ("climate", .obj
          [("airCtrl", .num 0), ("defrost", .bool false),
           ("airTemp", .obj [("value", .num 72)]),
           ("heatingAccessory", .obj
             [("rearWindow", .num 0), ("sideMirror", .num 0),
              ("steeringWheel", .num 0)])])]

/-- The same vehicleStatus section with tire-pressure data present. -/
def vsFull : JVal :=
  .obj [("syncDate", .obj [("utc", .str "20211018")]),
        ("doorStatus", .obj [("frontLeft", .num 0), ("trunk", .num 0),
                             ("hood", .num 0)]),
        ("tirePressure", .obj [("all", .num 0)]),
        ("climate", .obj
          [("airCtrl", .num 0), ("defrost", .bool false),
           ("airTemp", .obj [("value", .num 72)]),
           ("heatingAccessory", .obj
             [("rearWindow", .num 0), ("sideMirror", .num 0),
              ("steeringWheel", .num 0)])])]

/-- A cached-vehicle-status response body carrying the given
vehicleStatus section, with all surrounding sections present. -/
def statusBodyWith (vs : JVal) : JVal :=
  .obj [("payload", .obj [("vehicleInfoList", .arr [.obj
    [("lastVehicleInfo", .obj
       [("vehicleStatusRpt", .obj [("vehicleStatus", vs)]),
        ("location", .obj [("lat", .num 1), ("lon", .num 2)])]),
     ("vehicleConfig", .obj [("vehicleDetail", .obj
       [("vehicle", .obj [("mileage", .num 10000)])])])]])])]

/-- Counterexample to C6: a cached-vehicle-status response that merely
lacks the tire-pressure section makes normalization fail with a
propagated KeyError instead of yielding an absence marker. -/
theorem normalize_missing_tire_counterexample :
    get_cached_vehicle_status_normalize (statusBodyWith vsNoTire) =
      .error (.keyError "tirePressure") := by
  rfl

/-- C6 (amended): normalization reaches every optional nested section
by direct indexing, so a response whose vehicleStatus section lacks
tire-pressure data (earlier-accessed keys present) fails with the
propagated KeyError on tirePressure — no absence marker is produced —
while a response with all sections present normalizes successfully. -/
theorem normalize_requires_optional_sections
    (fs : List (String × JVal)) (sd utc ds trunk hood : JVal)
    (hsd : (JVal.obj fs).getKey "syncDate" = some sd)
    (hutc : sd.getKey "utc" = some utc)
    (hds : (JVal.obj fs).getKey "doorStatus" = some ds)
    (htr : ds.getKey "trunk" = some trunk)
    (hhd : ds.getKey "hood" = some hood)
    (htp : (JVal.obj fs).getKey "tirePressure" = none) :
    get_cached_vehicle_status_normalize (statusBodyWith (.obj fs)) =
      .error (.keyError "tirePressure") ∧
    (∃ out, get_cached_vehicle_status_normalize (statusBodyWith vsFull) =
      .ok out) := by
  constructor
  · have hvs : normalizeVehicleStatus (.obj fs) =
        .error (.keyError "tirePressure") := by
      simp only [JVal.getKey] at hsd hds htp hutc htr hhd
      simp [normalizeVehicleStatus, getK, JVal.getKey, JVal.setKey,
        Bind.bind, Except.bind, hsd, hutc, hds, htr, hhd, htp,
        lookup_setField_ne, lookup_setField_self]
    simp [get_cached_vehicle_status_normalize, statusBodyWith, getK,
      JVal.getKey, JVal.getIdx, List.lookup, List.get?,
      Bind.bind, Except.bind, hvs]
  · exact ⟨_, rfl⟩

/-- Witness for C6 (amended) at the concrete tireless response. -/
theorem normalize_requires_optional_sections_witness :
    get_cached_vehicle_status_normalize (statusBodyWith vsNoTire) =
        .error (.keyError "tirePressure") ∧
    (∃ out, get_cached_vehicle_status_normalize (statusBodyWith vsFull) =
      .ok out) :=
  normalize_requires_optional_sections
    [("syncDate", .obj [("utc", .str "20211018")]),
     ("doorStatus", .obj [("frontLeft", .num 0), ("trunk", .num 0),
                          ("hood", .num 0)]),
     ("climate", .obj
       [("airCtrl", .num 0), ("defrost", .bool false),
        ("airTemp", .obj [("value", .num 72)]),
        ("heatingAccessory", .obj
          [("rearWindow", .num 0), ("sideMirror", .num 0),
           ("steeringWheel", .num 0)])])]
    (.obj [("utc", .str "20211018")]) (.str "20211018")
    (.obj [("frontLeft", .num 0), ("trunk", .num 0), ("hood", .num 0)])
    (.num 0) (.num 0) rfl rfl rfl rfl rfl rfl

/-- An environment returning the success-with-Xid response on every
attempt. -/
def okXidEnv : Nat → Response := fun _ => okXidResponse

/-- C8: when the guarded call returns a success response, each of
climate start/stop and charge start/stop reads its Command Handle from
the Xid response header (not from the body) and hands it to the action
poller before returning; update_vehicle_status never polls; lock_action
(the remaining asynchronous command) instead fails with TypeError
before any request, never reaching the poller — the divergence that
makes the claim a code bug. -/
theorem commands_hand_header_handle_to_poller
    (env : Nat → Response) (lg : Except PyError Token × Nat) (t : Token)
    (xid : String)
    (hok : classify (env 0) = .ok (env 0))
    (hxid : (env 0).headerGet "Xid" = some xid) :
    (∀ (set_temp duration : Int) (defrost climate heating : Bool),
      start_climate env lg t set_temp duration defrost climate heating =
        ⟨.ok (), some xid, 1⟩) ∧
    stop_climate env lg t = ⟨.ok (), some xid, 1⟩ ∧
    start_charge env lg t = ⟨.ok (), some xid, 1⟩ ∧
    stop_charge env lg t = ⟨.ok (), some xid, 1⟩ ∧
    (update_vehicle_status env lg t).pollHandle = none ∧
    (lock_action env lg t "close").pollHandle = none ∧
    (lock_action env lg t "close").result = .error .typeError := by
  have hpostf : ∀ b, (with_logging (rawTransport
      [Kw.token, Kw.url, Kw.jsonBody] postRequestParams env)) 0 t (some b) =
      (.ok (env 0), 1) := by
    intro b
    simp [with_logging, rawTransport, kwargsBindOk, postRequestParams, hok]
  have hgetf : (with_logging (rawTransport
      [Kw.token, Kw.url] getRequestParams env)) 0 t none =
      (.ok (env 0), 1) := by
    simp [with_logging, rawTransport, kwargsBindOk, getRequestParams, hok]
  have hpost : ∀ b, post_request_with_logging_and_active_session
      [Kw.token, Kw.url, Kw.jsonBody] env lg t b =
      ⟨.ok (env 0), t, some b, 1, 1, 0⟩ := by
    intro b
    simp only [post_request_with_logging_and_active_session]
    exact guard_first_ok _ lg t (some b) (env 0) 1 (hpostf b)
  have hget : get_request_with_logging_and_active_session
      [Kw.token, Kw.url] env lg t = ⟨.ok (env 0), t, none, 1, 1, 0⟩ := by
    simp only [get_request_with_logging_and_active_session]
    exact guard_first_ok _ lg t none (env 0) 1 hgetf
  refine ⟨?_, ?_, ?_, ?_, ?_, rfl, rfl⟩
  · intro set_temp duration defrost climate heating
    simp [start_climate, runCommand, hpost, hxid]
  · simp [stop_climate, runCommand, hget, hxid]
  · simp [start_charge, runCommand, hpost, hxid]
  · simp [stop_charge, runCommand, hget, hxid]
  · simp [update_vehicle_status, hpost]

/-- Witness for C8: the concrete success-with-Xid environment. -/
theorem commands_hand_header_handle_to_poller_witness :
    start_charge okXidEnv (Except.ok Token.unset, 0) Token.unset =
        ⟨.ok (), some "xid-1", 1⟩ ∧
    (lock_action okXidEnv (Except.ok Token.unset, 0) Token.unset
        "close").result = .error .typeError :=
  ⟨(commands_hand_header_handle_to_poller okXidEnv
      (Except.ok Token.unset, 0) Token.unset "xid-1" rfl rfl).2.2.1,
   (commands_hand_header_handle_to_poller okXidEnv
      (Except.ok Token.unset, 0) Token.unset "xid-1" rfl rfl).2.2.2.2.2.2⟩
